import Mathlib

/-!
Verification of the factory digital-twin simulation engine
(`state_engine.py`), shallowly embedded in Lean 4.

Modelling conventions:
* Python ints are `Int` (or `Nat` where the source value is a count that
  starts at 0 and only grows, such as the factory clock).
* Python floats are modelled as the exact rational numbers they denote
  (`Rat`) in the state-machine layer; every float produced by the cash,
  health and wear arithmetic of the engine is an exact binary rational.
  The market model additionally gets an idealized real-number embedding
  (`Real`, exact sine) for the claims about its formulas, with the random
  perturbations injected as explicit noise streams.
* Python dict keys are dynamically typed; `PyKey` models the two key
  types that actually occur (int and str), because the engine builds the
  forecast dict with `str` keys and later indexes it with an `int` key.
* A raised exception is modelled as a `some PyError` component of the
  result; state mutations performed before the raise persist, exactly as
  they do on the in-place-mutated Python object.
* The SQLite persistence layer is modelled as two in-memory lists on the
  state: `factory_history` (INSERT with tick primary key; a conflicting
  insert fails and is swallowed, leaving the table unchanged) and
  `job_history` (INSERT OR REPLACE keyed by job id, i.e. upsert).
-/

/-- The two Python dict-key types used by the engine: `int` keys (used by
`tick` to index the forecast) and `str` keys (used to build the forecast). -/
inductive PyKey where
  | int : Int → PyKey
  | str : String → PyKey
deriving DecidableEq, BEq

/-- Python exceptions that the embedded code can raise.  The only raise
site reachable in the engine is the failing dict lookup in `tick`. -/
inductive PyError where
  | keyError : PyError
deriving DecidableEq

/-- A production job, as built by `start_job` (the dict literal at
state_engine.py lines 120-127). -/
structure Job where
  id : String
  qty : Int
  start_tick : Nat
  duration : Int
  cost : Int
  revenue : Rat
deriving DecidableEq

/-- A row of the `job_history` table: `(job_id, start_tick, end_tick,
status, revenue, cost)`. -/
structure JobRecord where
  job_id : String
  start_tick : Nat
  end_tick : Nat
  status : String
  revenue : Rat
  cost : Int
deriving DecidableEq

/-- A row of the `factory_history` table: the per-tick snapshot
`(tick, cash_balance, inventory, machine_health, active_jobs_count, shift)`. -/
structure Snapshot where
  tick : Nat
  cash_balance : Rat
  inventory : Int
  machine_health : Rat
  active_jobs_count : Nat
  shift : String
deriving DecidableEq

/-- The digital twin `FactoryState`: core variables from `__init__`
plus the two persisted tables. -/
structure FactoryState where
  inventory : Int
  cash_balance : Rat
  machine_health : Rat
  factory_clock : Nat
  current_shift : String
  active_jobs : List Job
  factory_history : List Snapshot
  job_history : List JobRecord
deriving DecidableEq

/-- The initial state built by `FactoryState.__init__`. -/
def initState : FactoryState :=
  { inventory := 0
    cash_balance := 1000
    machine_health := 100
    factory_clock := 0
    current_shift := "DAY"
    active_jobs := []
    factory_history := []
    job_history := [] }

/-- `_log_job`: INSERT OR REPLACE into `job_history` keyed by `job_id`
(upsert: any existing row with the same id is replaced). -/
def log_job (tbl : List JobRecord) (r : JobRecord) : List JobRecord :=
  (tbl.filter (fun q => q.job_id ≠ r.job_id)) ++ [r]

/-- The `job_history` row written by `_log_job(job, status)` when the
factory clock reads `now`. -/
def jobRecordOf (job : Job) (status : String) (now : Nat) : JobRecord :=
  { job_id := job.id
    start_tick := job.start_tick
    end_tick := now
    status := status
    revenue := job.revenue
    cost := job.cost }

/-- The snapshot row written by `_log_state`. -/
def snapshotOf (s : FactoryState) : Snapshot :=
  { tick := s.factory_clock
    cash_balance := s.cash_balance
    inventory := s.inventory
    machine_health := s.machine_health
    active_jobs_count := s.active_jobs.length
    shift := s.current_shift }

/-- `_log_state`: INSERT into `factory_history` with `tick` as primary
key; a key conflict raises inside the try block, is caught, and leaves
the table unchanged. -/
def log_state (s : FactoryState) : FactoryState :=
  if s.factory_history.any (fun r => r.tick = s.factory_clock) then s
  else { s with factory_history := s.factory_history ++ [snapshotOf s] }

/-- `repair_machine` (state_engine.py lines 99-106). -/
def repair_machine (s : FactoryState) : FactoryState × String :=
  let cost : Int := 200
  if s.cash_balance ≥ (cost : Rat) then
    ({ s with cash_balance := s.cash_balance - (cost : Rat), machine_health := 100 },
     s!"Machine repaired. Cost: ${cost}. Health: 100%.")
  else
    (s, "Insufficient funds for repair.")

/-- `start_job` (state_engine.py lines 109-137). -/
def start_job (s : FactoryState) (job_id : String) (qty : Int) :
    FactoryState × String :=
  let unit_cost : Int := 50
  let total_cost : Int := unit_cost * qty
  if s.cash_balance ≥ (total_cost : Rat) then
    if s.machine_health ≤ 0 then
      (s, "Machine broken. Cannot start job.")
    else
      let job : Job :=
        { id := job_id
          qty := qty
          start_tick := s.factory_clock
          duration := 5
          cost := total_cost
          revenue := 0 }
      let wear : Rat := if s.current_shift = "DAY" then 5 else 8
      let s1 :=
        { s with
          cash_balance := s.cash_balance - (total_cost : Rat)
          active_jobs := s.active_jobs ++ [job]
          machine_health := max 0 (s.machine_health - wear)
          job_history := log_job s.job_history (jobRecordOf job "STARTED" s.factory_clock) }
      (s1, s!"Job {job_id} started. Cost: ${total_cost}. Est. Duration: 5 ticks.")
  else
    (s, "Insufficient funds to start job.")

/-- `cancel_job` (state_engine.py lines 139-146): linear search for the
first active job with the given id; `list.remove` deletes the first
element equal to the found one. -/
def cancel_job (s : FactoryState) (job_id : String) : FactoryState × String :=
  match s.active_jobs.find? (fun j => j.id == job_id) with
  | some job =>
      ({ s with
          active_jobs := s.active_jobs.erase job
          job_history := log_job s.job_history (jobRecordOf job "CANCELLED" s.factory_clock) },
       s!"Job {job_id} cancelled.")
  | none => (s, "Job not found.")

/-- `change_shift` (state_engine.py lines 149-153). -/
def change_shift (s : FactoryState) (new_shift : String) : FactoryState × String :=
  if new_shift = "DAY" ∨ new_shift = "NIGHT" then
    ({ s with current_shift := new_shift }, s!"Shift changed to {new_shift}.")
  else
    (s, "Invalid shift. Use DAY or NIGHT.")

/-- Engine-level embedding of `get_market_forecast` (state_engine.py
lines 156-181): the loop `for t in range(1, horizon+1)` inserts, under
the STRING key `str(self.factory_clock + t)`, a `(demand, price)` entry.
The numeric entry values are produced by floating-point sine arithmetic
plus fresh randomness; they are injected here as an oracle
`entryO : Nat → Int × Rat` giving, for each future tick, the (demand,
price) pair the market model computes (each Python float being the exact
rational it denotes).  The idealized real-number embedding of the entry
formulas is `get_market_forecast_real` below; `tick` only ever inspects
the KEYS of this dict, so the entry oracle never influences it. -/
def get_market_forecast (entryO : Nat → Int × Rat) (s : FactoryState)
    (horizon : Nat) : List (PyKey × (Int × Rat)) :=
  (List.range' 1 horizon).map
    (fun t => (PyKey.str (toString (s.factory_clock + t)), entryO (s.factory_clock + t)))

/-- The completion loop of `tick` (state_engine.py lines 198-213): for
each completed job, remove it from the active list, then look up
`self.get_market_forecast(horizon=1)[self.factory_clock + 1]` — an INT
key against the STRING-keyed forecast dict, so the lookup raises
`KeyError`; on (unreachable) success it would credit revenue and
inventory and log the COMPLETED record.  A raised error aborts the loop,
keeping the mutations made so far. -/
def processCompleted (entryO : Nat → Int × Rat) :
    List Job → FactoryState → FactoryState × Option PyError
  | [], s => (log_state s, none)
  | job :: rest, s =>
      let s1 := { s with active_jobs := s.active_jobs.erase job }
      match (get_market_forecast entryO s1 1).lookup (PyKey.int (s1.factory_clock + 1)) with
      | none => (s1, some PyError.keyError)
      | some entry =>
          let market_price := entry.2
          let revenue : Rat := (job.qty : Rat) * market_price
          let job1 := { job with revenue := revenue }
          let s2 :=
            { s1 with
              cash_balance := s1.cash_balance + revenue
              inventory := s1.inventory + job.qty
              job_history := log_job s1.job_history (jobRecordOf job1 "COMPLETED" s1.factory_clock) }
          processCompleted entryO rest s2

/-- `tick` (state_engine.py lines 184-215): advance the clock, decrement
every active job duration, collect the jobs whose duration reached ≤ 0,
run the completion loop, and (when it finishes) log the tick snapshot. -/
def tick (entryO : Nat → Int × Rat) (s : FactoryState) :
    FactoryState × Option PyError :=
  let s0 := { s with factory_clock := s.factory_clock + 1 }
  let jobs1 := s0.active_jobs.map (fun j => { j with duration := j.duration - 1 })
  let completed := jobs1.filter (fun j => j.duration ≤ 0)
  processCompleted entryO completed { s0 with active_jobs := jobs1 }

/-- Models Python `f"{x:.2f}"` for the non-negative exact-cent values
the engine prints (ties cannot occur for them). -/
def formatFixed2 (q : Rat) : String :=
  let c : Int := round (q * 100)
  let frac : Int := c % 100
  s!"{c / 100}." ++ (if frac < 10 then "0" ++ toString frac else toString frac)

/-- Models Python `str(float)` for the integral float values the engine
prints (e.g. `str(100.0) = "100.0"`). -/
def pyFloatRepr (q : Rat) : String :=
  if q.den = 1 then s!"{q.num}.0" else toString q

/-- `get_status` (state_engine.py lines 217-220): returns a single
formatted STRING (not a mapping). -/
def get_status (s : FactoryState) : String :=
  s!"Tick: {s.factory_clock} | Shift: {s.current_shift} | " ++
  s!"Cash: ${formatFixed2 s.cash_balance} | Inventory: {s.inventory} | " ++
  s!"Health: {pyFloatRepr s.machine_health}% | Active Jobs: {s.active_jobs.length}"

/-- The command surface of the engine, for reachability statements: the
mutating operations plus the read operations (which do not touch the
state). -/
inductive Op where
  | startJob : String → Int → Op
  | cancelJob : String → Op
  | repairMachine : Op
  | changeShift : String → Op
  | tickOp : Op
  | getStatus : Op
  | getFinancials : Op
  | getMarketForecast : Nat → Op
  | logIssue : String → String → Op

/-- One step of the command surface (read operations return values but
leave the state unchanged; their results are dropped here). -/
def stepOp (entryO : Nat → Int × Rat) (s : FactoryState) : Op → FactoryState
  | Op.startJob id qty => (start_job s id qty).1
  | Op.cancelJob id => (cancel_job s id).1
  | Op.repairMachine => (repair_machine s).1
  | Op.changeShift sh => (change_shift s sh).1
  | Op.tickOp => (tick entryO s).1
  | Op.getStatus => s
  | Op.getFinancials => s
  | Op.getMarketForecast _ => s
  | Op.logIssue _ _ => s

/-- Run a sequence of operations from a state. -/
def runOps (entryO : Nat → Int × Rat) (s : FactoryState) : List Op → FactoryState
  | [] => s
  | op :: ops => runOps entryO (stepOp entryO s op) ops

/-! ### Idealized numeric embedding of the market model

`get_market_forecast` computes, for each future tick, a demand and a
price from a sine wave plus bounded random noise (state_engine.py lines
156-181).  Here the floating-point arithmetic is idealized over the real
numbers (exact `Real.sin`), with the two random draws injected as noise
streams `noiseD` (the integer `random.randint(-2, 2)`) and `noiseP` (the
float `random.uniform(-5, 5)`). -/

/-- The periodic signal `math.sin(future_tick * (2 * math.pi / 24))`. -/
noncomputable def cycle (future_tick : Nat) : Real :=
  Real.sin ((future_tick : Real) * (2 * Real.pi / 24))

/-- Python `int(x)` on a float: truncation toward zero. -/
noncomputable def pyInt (x : Real) : Int :=
  if 0 ≤ x then ⌊x⌋ else -⌊-x⌋

/-- Python `round(x, 2)`: rounding to two decimal places.  (Python breaks
exact half-cent ties to even; such ties are never exercised here, and we
model the rounding with the standard `round`.) -/
noncomputable def pyRound2 (x : Real) : Real := ((round (x * 100) : Int) : Real) / 100

/-- The demand entry computed by the source:
`max(1, int(base_market_demand + cycle * 5 + randint(-2, 2)))` with
`base_market_demand = 10` — note `int(...)` TRUNCATES toward zero. -/
noncomputable def pyDemand (noiseD : Nat → Int) (future_tick : Nat) : Int :=
  max 1 (pyInt ((10 : Real) + cycle future_tick * 5 + (noiseD future_tick : Real)))

/-- The price entry computed by the source:
`round(base_market_price + cycle * 20 + uniform(-5, 5), 2)` with
`base_market_price = 150`. -/
noncomputable def pyPrice (noiseP : Nat → Real) (future_tick : Nat) : Real :=
  pyRound2 ((150 : Real) + cycle future_tick * 20 + noiseP future_tick)

/-- Idealized numeric embedding of `get_market_forecast`: the loop over
`t in range(1, horizon+1)` inserting `str(clock+t) ↦ (demand, price)`. -/
noncomputable def get_market_forecast_real (clock horizon : Nat)
    (noiseD : Nat → Int) (noiseP : Nat → Real) : List (String × (Int × Real)) :=
  (List.range' 1 horizon).map
    (fun t => (toString (clock + t), (pyDemand noiseD (clock + t), pyPrice noiseP (clock + t))))

/-- Modelled from the spec. The demand formula as the claim states it:
`demand = max(1, round(baseDemand + cycle * 5 + uniformNoise(-2, 2)))`,
i.e. with ROUNDING to the nearest integer instead of truncation.  Used
only as the comparison point for the C4 counterexample. -/
noncomputable def demand_spec (noiseD : Nat → Int) (future_tick : Nat) : Int :=
  max 1 (round ((10 : Real) + cycle future_tick * 5 + (noiseD future_tick : Real)))

/-- At future tick 3 the cycle is `sin(π/4) = √2/2`. -/
lemma cycle_three : cycle 3 = Real.sqrt 2 / 2 := by
  have h : ((3 : Nat) : Real) * (2 * Real.pi / 24) = Real.pi / 4 := by
    push_cast
    ring
  rw [cycle, h, Real.sin_pi_div_four]

lemma sqrt_two_bounds : (7 / 5 : Real) ≤ Real.sqrt 2 ∧ Real.sqrt 2 < (8 / 5 : Real) := by
  have h0 : (0 : Real) ≤ Real.sqrt 2 := Real.sqrt_nonneg 2
  have h2 : Real.sqrt 2 ^ 2 = 2 := Real.sq_sqrt (by norm_num)
  constructor
  · nlinarith [sq_nonneg (Real.sqrt 2 - 7 / 5)]
  · nlinarith [sq_nonneg (Real.sqrt 2 - 8 / 5)]

/-! ### Engine lemmas -/

@[simp] lemma PyKey.int_beq_str (k : Int) (t : String) :
    (PyKey.int k == PyKey.str t) = false := rfl

/-- The crucial dict mismatch: the forecast dict is built with STRING
keys, so any lookup with an INT key fails. -/
lemma lookup_int_get_market_forecast (entryO : Nat → Int × Rat)
    (s : FactoryState) (horizon : Nat) (k : Int) :
    (get_market_forecast entryO s horizon).lookup (PyKey.int k) = none := by
  unfold get_market_forecast
  induction List.range' 1 horizon with
  | nil => rfl
  | cons a l ih => simpa [List.lookup] using ih

/-- The completion loop on a nonempty list of completed jobs: the first
job is removed from the active list, then the int-keyed lookup on the
string-keyed forecast raises `KeyError`, aborting the loop before any
revenue, inventory or record write. -/
lemma processCompleted_cons (entryO : Nat → Int × Rat) (job : Job)
    (rest : List Job) (s : FactoryState) :
    processCompleted entryO (job :: rest) s =
      ({ s with active_jobs := s.active_jobs.erase job }, some PyError.keyError) := by
  simp [processCompleted, lookup_int_get_market_forecast]

@[simp] lemma log_state_inventory (s : FactoryState) :
    (log_state s).inventory = s.inventory := by
  unfold log_state; split <;> rfl

@[simp] lemma log_state_cash (s : FactoryState) :
    (log_state s).cash_balance = s.cash_balance := by
  unfold log_state; split <;> rfl

@[simp] lemma log_state_health (s : FactoryState) :
    (log_state s).machine_health = s.machine_health := by
  unfold log_state; split <;> rfl

@[simp] lemma log_state_clock (s : FactoryState) :
    (log_state s).factory_clock = s.factory_clock := by
  unfold log_state; split <;> rfl

@[simp] lemma log_state_shift (s : FactoryState) :
    (log_state s).current_shift = s.current_shift := by
  unfold log_state; split <;> rfl

@[simp] lemma log_state_active_jobs (s : FactoryState) :
    (log_state s).active_jobs = s.active_jobs := by
  unfold log_state; split <;> rfl

@[simp] lemma log_state_job_history (s : FactoryState) :
    (log_state s).job_history = s.job_history := by
  unfold log_state; split <;> rfl

/-- `tick` when no job completes: only duration decrements, clock
advance, and the snapshot write happen. -/
lemma tick_of_no_complete (entryO : Nat → Int × Rat) (s : FactoryState)
    (h : (s.active_jobs.map (fun j => { j with duration := j.duration - 1 })).filter
        (fun j => j.duration ≤ 0) = []) :
    tick entryO s =
      (log_state
        { s with
            factory_clock := s.factory_clock + 1
            active_jobs :=
              s.active_jobs.map (fun j => { j with duration := j.duration - 1 }) },
       none) := by
  unfold tick
  dsimp only
  rw [h]
  rfl

/-- `tick` when at least one job completes: the first completed job is
removed and the int-keyed forecast lookup raises `KeyError`; cash,
inventory and both history tables are untouched. -/
lemma tick_of_complete (entryO : Nat → Int × Rat) (s : FactoryState)
    (c : Job) (rest : List Job)
    (h : (s.active_jobs.map (fun j => { j with duration := j.duration - 1 })).filter
        (fun j => j.duration ≤ 0) = c :: rest) :
    tick entryO s =
      ({ s with
          factory_clock := s.factory_clock + 1
          active_jobs :=
            (s.active_jobs.map (fun j => { j with duration := j.duration - 1 })).erase c },
       some PyError.keyError) := by
  unfold tick
  dsimp only
  rw [h]
  exact processCompleted_cons _ _ _ _

/-- Success characterization of `start_job`, shared by several claims:
with sufficient cash and a working machine, the job is charged, enqueued
with duration 5, wear is applied (floored at 0), the STARTED record is
upserted, and the confirmation string names the job id and the cost. -/
lemma start_job_success (s : FactoryState) (job_id : String) (qty : Int)
    (hcash : ((50 * qty : Int) : Rat) ≤ s.cash_balance)
    (hh : 0 < s.machine_health) :
    start_job s job_id qty =
      ({ s with
          cash_balance := s.cash_balance - ((50 * qty : Int) : Rat)
          active_jobs := s.active_jobs ++
            [{ id := job_id, qty := qty, start_tick := s.factory_clock,
               duration := 5, cost := 50 * qty, revenue := 0 }]
          machine_health :=
            max 0 (s.machine_health - (if s.current_shift = "DAY" then 5 else 8))
          job_history := log_job s.job_history
            { job_id := job_id, start_tick := s.factory_clock,
              end_tick := s.factory_clock, status := "STARTED",
              revenue := 0, cost := 50 * qty } },
       s!"Job {job_id} started. Cost: ${(50 * qty : Int)}. Est. Duration: 5 ticks.") := by
  unfold start_job
  dsimp only
  rw [if_pos hcash, if_neg (not_le.mpr hh)]
  rfl

lemma cancel_job_health (s : FactoryState) (job_id : String) :
    (cancel_job s job_id).1.machine_health = s.machine_health := by
  unfold cancel_job
  cases s.active_jobs.find? (fun j => j.id == job_id) <;> rfl

lemma change_shift_health (s : FactoryState) (sh : String) :
    (change_shift s sh).1.machine_health = s.machine_health := by
  unfold change_shift
  split <;> rfl

lemma repair_machine_health (s : FactoryState) :
    (repair_machine s).1.machine_health = 100 ∨
      (repair_machine s).1.machine_health = s.machine_health := by
  unfold repair_machine
  dsimp only
  split
  · exact Or.inl rfl
  · exact Or.inr rfl

lemma start_job_health (s : FactoryState) (job_id : String) (qty : Int) :
    (start_job s job_id qty).1.machine_health = s.machine_health ∨
      (start_job s job_id qty).1.machine_health =
        max 0 (s.machine_health - (if s.current_shift = "DAY" then 5 else 8)) := by
  unfold start_job
  dsimp only
  split
  · split
    · exact Or.inl rfl
    · exact Or.inr rfl
  · exact Or.inl rfl

lemma tick_health (entryO : Nat → Int × Rat) (s : FactoryState) :
    (tick entryO s).1.machine_health = s.machine_health := by
  cases hc :
      (s.active_jobs.map (fun j => { j with duration := j.duration - 1 })).filter
        (fun j => j.duration ≤ 0) with
  | nil => rw [tick_of_no_complete _ _ hc]; simp
  | cons c rest => rw [tick_of_complete _ _ _ _ hc]

/-- Every command-surface step keeps the machine health inside `[0, 100]`. -/
lemma stepOp_health (entryO : Nat → Int × Rat) (s : FactoryState) (op : Op)
    (h0 : 0 ≤ s.machine_health) (h100 : s.machine_health ≤ 100) :
    0 ≤ (stepOp entryO s op).machine_health ∧
      (stepOp entryO s op).machine_health ≤ 100 := by
  have hwear : (0 : Rat) ≤ (if s.current_shift = "DAY" then (5 : Rat) else 8) := by
    split <;> norm_num
  cases op with
  | startJob job_id qty =>
      rcases start_job_health s job_id qty with h | h <;> rw [stepOp, h]
      · exact ⟨h0, h100⟩
      · refine ⟨le_max_left _ _, max_le (by norm_num) ?_⟩
        linarith
  | cancelJob job_id => rw [stepOp, cancel_job_health]; exact ⟨h0, h100⟩
  | repairMachine =>
      rcases repair_machine_health s with h | h <;> rw [stepOp, h]
      · norm_num
      · exact ⟨h0, h100⟩
  | changeShift sh => rw [stepOp, change_shift_health]; exact ⟨h0, h100⟩
  | tickOp => rw [stepOp, tick_health]; exact ⟨h0, h100⟩
  | getStatus => exact ⟨h0, h100⟩
  | getFinancials => exact ⟨h0, h100⟩
  | getMarketForecast h => exact ⟨h0, h100⟩
  | logIssue c d => exact ⟨h0, h100⟩

/-- Removing the element found by `find? p` (the Python
`list.remove(job)` after the linear search) removes exactly the first
element satisfying `p`. -/
lemma erase_find?_eq_eraseP {α : Type} [DecidableEq α] (p : α → Bool)
    (l : List α) (a : α) (h : l.find? p = some a) :
    l.erase a = l.eraseP p := by
  induction l with
  | nil => simp at h
  | cons x xs ih =>
      by_cases hx : p x
      · rw [List.find?_cons_of_pos _ hx] at h
        cases h
        simp [List.erase_cons, List.eraseP_cons, hx]
      · rw [List.find?_cons_of_neg _ hx] at h
        have hpa : p a = true := List.find?_some h
        have hax : x ≠ a := fun e => hx (e ▸ hpa)
        simp [List.erase_cons, List.eraseP_cons, hx, hax, ih h]

/-! ### Claim theorems -/

/-- C2: every state reachable from the initial state by any sequence of
command-surface operations (job start/cancel, repair, shift change,
tick, and the read operations) has `0 ≤ machine_health ≤ 100`: it starts
at 100, wear on job start is subtracted but floored at 0, and repair
sets it to exactly 100. -/
theorem C2_machine_health_invariant (entryO : Nat → Int × Rat) (ops : List Op) :
    0 ≤ (runOps entryO initState ops).machine_health ∧
      (runOps entryO initState ops).machine_health ≤ 100 := by
  suffices h : ∀ (ops : List Op) (s : FactoryState),
      0 ≤ s.machine_health → s.machine_health ≤ 100 →
      0 ≤ (runOps entryO s ops).machine_health ∧
        (runOps entryO s ops).machine_health ≤ 100 by
    exact h ops initState (by norm_num [initState]) (by norm_num [initState])
  intro ops
  induction ops with
  | nil => exact fun s h0 h100 => ⟨h0, h100⟩
  | cons op ops ih =>
      intro s h0 h100
      exact ih _ (stepOp_health entryO s op h0 h100).1 (stepOp_health entryO s op h0 h100).2

/-- C3: from any state with sufficient cash and a working machine,
`start_job` debits exactly `50 * qty`, appends one job of duration 5 to
the end of the active list, applies shift-dependent wear (5 on DAY, 8
otherwise) floored at 0, upserts a STARTED job record, and returns a
confirmation string containing the job id and the cost; in particular
(Scenario A) from the fresh state `start_job("O1", 10)` leaves cash 500,
health 95 and a single active job of duration 5. -/
theorem C3_start_job_success (s : FactoryState) (job_id : String) (qty : Int)
    (hcash : ((50 * qty : Int) : Rat) ≤ s.cash_balance)
    (hh : 0 < s.machine_health) :
    (start_job s job_id qty =
      ({ s with
          cash_balance := s.cash_balance - ((50 * qty : Int) : Rat)
          active_jobs := s.active_jobs ++
            [{ id := job_id, qty := qty, start_tick := s.factory_clock,
               duration := 5, cost := 50 * qty, revenue := 0 }]
          machine_health :=
            max 0 (s.machine_health - (if s.current_shift = "DAY" then 5 else 8))
          job_history := log_job s.job_history
            { job_id := job_id, start_tick := s.factory_clock,
              end_tick := s.factory_clock, status := "STARTED",
              revenue := 0, cost := 50 * qty } },
       "Job " ++ job_id ++ " started. Cost: $" ++ toString (50 * qty : Int) ++
         ". Est. Duration: 5 ticks.")) ∧
    (start_job initState "O1" 10).1.cash_balance = 500 ∧
    (start_job initState "O1" 10).1.machine_health = 95 ∧
    (start_job initState "O1" 10).1.active_jobs =
      [{ id := "O1", qty := 10, start_tick := 0, duration := 5,
         cost := 500, revenue := 0 }] := by
  refine ⟨start_job_success s job_id qty hcash hh, ?_, ?_, ?_⟩ <;>
    rw [start_job_success initState "O1" 10 (by decide) (by decide)] <;>
    norm_num [initState]

/-- C3 witness: the hypotheses hold at the fresh state with Scenario A
inputs, and the theorem applies there. -/
theorem C3_start_job_success_witness :
    ((50 * 10 : Int) : Rat) ≤ initState.cash_balance ∧
    0 < initState.machine_health ∧
    ((start_job initState "O1" 10).1.cash_balance = 500 ∧
     (start_job initState "O1" 10).1.machine_health = 95 ∧
     (start_job initState "O1" 10).1.active_jobs =
       [{ id := "O1", qty := 10, start_tick := 0, duration := 5,
          cost := 500, revenue := 0 }]) :=
  ⟨by decide, by decide,
   (C3_start_job_success initState "O1" 10 (by decide) (by decide)).2⟩

/-- A fixed market-entry oracle for running concrete scenarios. -/
def scenarioEntryO : Nat → Int × Rat := fun _ => (10, 150)

/-- Scenario A: `start_job("O1", 10)` from the fresh state. -/
def scenarioA : FactoryState := (start_job initState "O1" 10).1

/-- Scenario A advanced by four ticks: the single active job has
remaining duration 1, so the fifth tick is the completing one. -/
def scenarioB4 : FactoryState :=
  (tick scenarioEntryO
    (tick scenarioEntryO
      (tick scenarioEntryO
        (tick scenarioEntryO scenarioA).1).1).1).1

/-- C1: whenever some active job's remaining duration reaches 0 during
`tick()`, the completion code indexes the string-keyed forecast dict
with an INT key and raises `KeyError`: the clock still advances and the
first completed job is removed, but cash is NOT credited, inventory is
NOT incremented, and neither a COMPLETED job record nor a tick snapshot
is written.  In particular, advancing 5 ticks from Scenario A leaves
inventory 0 (not 10) while the active job count does return to 0. -/
theorem C1_tick_completion_raises (entryO : Nat → Int × Rat)
    (s : FactoryState) (h : ∃ j ∈ s.active_jobs, j.duration ≤ 1) :
    ((tick entryO s).2 = some PyError.keyError ∧
     (tick entryO s).1.inventory = s.inventory ∧
     (tick entryO s).1.cash_balance = s.cash_balance ∧
     (tick entryO s).1.job_history = s.job_history ∧
     (tick entryO s).1.factory_history = s.factory_history ∧
     (tick entryO s).1.factory_clock = s.factory_clock + 1) ∧
    (tick scenarioEntryO scenarioB4).2 = some PyError.keyError ∧
    (tick scenarioEntryO scenarioB4).1.inventory = 0 ∧
    (tick scenarioEntryO scenarioB4).1.active_jobs = [] ∧
    (tick scenarioEntryO scenarioB4).1.factory_clock = 5 := by
  obtain ⟨j, hj, hdur⟩ := h
  have hmem :
      ({ j with duration := j.duration - 1 } : Job) ∈
        ((s.active_jobs.map (fun j => { j with duration := j.duration - 1 })).filter
          (fun j => j.duration ≤ 0)) := by
    refine List.mem_filter.mpr ⟨List.mem_map.mpr ⟨j, hj, rfl⟩, ?_⟩
    simpa using by omega
  have hne :
      ((s.active_jobs.map (fun j => { j with duration := j.duration - 1 })).filter
        (fun j => j.duration ≤ 0)) ≠ [] := by
    intro hnil
    rw [hnil] at hmem
    exact absurd hmem (List.not_mem_nil _)
  obtain ⟨c, rest, hc⟩ := List.exists_cons_of_ne_nil hne
  rw [tick_of_complete entryO s c rest hc]
  refine ⟨⟨rfl, rfl, rfl, rfl, rfl, rfl⟩, by decide, by decide, by decide, by decide⟩

/-- C1 witness: the completing state of Scenario B (Scenario A advanced
four ticks) satisfies the hypothesis, and the theorem applies there. -/
theorem C1_tick_completion_raises_witness :
    (∃ j ∈ scenarioB4.active_jobs, j.duration ≤ 1) ∧
    (((tick scenarioEntryO scenarioB4).2 = some PyError.keyError ∧
      (tick scenarioEntryO scenarioB4).1.inventory = scenarioB4.inventory ∧
      (tick scenarioEntryO scenarioB4).1.cash_balance = scenarioB4.cash_balance ∧
      (tick scenarioEntryO scenarioB4).1.job_history = scenarioB4.job_history ∧
      (tick scenarioEntryO scenarioB4).1.factory_history = scenarioB4.factory_history ∧
      (tick scenarioEntryO scenarioB4).1.factory_clock = scenarioB4.factory_clock + 1) ∧
     (tick scenarioEntryO scenarioB4).2 = some PyError.keyError ∧
     (tick scenarioEntryO scenarioB4).1.inventory = 0 ∧
     (tick scenarioEntryO scenarioB4).1.active_jobs = [] ∧
     (tick scenarioEntryO scenarioB4).1.factory_clock = 5) :=
  ⟨by decide,
   C1_tick_completion_raises scenarioEntryO scenarioB4 (by decide)⟩

/-- C10: `tick` never consults `machine_health` — for any two states
that differ only in machine health, it performs identical updates to the
clock, the active job list (duration decrements and completions), cash
and inventory, and raises identically; in particular (taking the health
to 0) jobs in progress keep advancing and completing on a broken
machine, only starting a new job being blocked. -/
theorem C10_tick_ignores_health (entryO : Nat → Int × Rat)
    (s : FactoryState) (h : Rat) :
    (tick entryO { s with machine_health := h }).1.factory_clock =
      (tick entryO s).1.factory_clock ∧
    (tick entryO { s with machine_health := h }).1.active_jobs =
      (tick entryO s).1.active_jobs ∧
    (tick entryO { s with machine_health := h }).1.cash_balance =
      (tick entryO s).1.cash_balance ∧
    (tick entryO { s with machine_health := h }).1.inventory =
      (tick entryO s).1.inventory ∧
    (tick entryO { s with machine_health := h }).2 = (tick entryO s).2 ∧
    (tick entryO { s with machine_health := h }).1.machine_health = h := by
  cases hc :
      (s.active_jobs.map (fun j => { j with duration := j.duration - 1 })).filter
        (fun j => j.duration ≤ 0) with
  | nil =>
      rw [tick_of_no_complete entryO s hc,
        tick_of_no_complete entryO { s with machine_health := h } hc]
      simp
  | cons c rest =>
      rw [tick_of_complete entryO s c rest hc,
        tick_of_complete entryO { s with machine_health := h } c rest hc]
      exact ⟨rfl, rfl, rfl, rfl, rfl, rfl⟩

/-- Scenario D state: fresh state with cash lowered to 100. -/
def stateD : FactoryState := { initState with cash_balance := 100 }

/-- A fresh state whose machine is broken (health 0). -/
def stateBroken : FactoryState := { initState with machine_health := 0 }

/-- C5: every domain-rule precondition failure — insufficient funds or a
broken machine on `start_job`, insufficient funds on `repair_machine`,
an argument outside DAY/NIGHT on `change_shift` — returns an explicit
negative result (no exception is raised) and returns the state with
every field unchanged. -/
theorem C5_domain_errors_preserve_state (s : FactoryState)
    (job_id new_shift : String) (qty : Int) :
    (s.cash_balance < ((50 * qty : Int) : Rat) →
      start_job s job_id qty = (s, "Insufficient funds to start job.")) ∧
    (((50 * qty : Int) : Rat) ≤ s.cash_balance → s.machine_health ≤ 0 →
      start_job s job_id qty = (s, "Machine broken. Cannot start job.")) ∧
    (s.cash_balance < ((200 : Int) : Rat) →
      repair_machine s = (s, "Insufficient funds for repair.")) ∧
    (new_shift ≠ "DAY" → new_shift ≠ "NIGHT" →
      change_shift s new_shift = (s, "Invalid shift. Use DAY or NIGHT.")) := by
  refine ⟨?_, ?_, ?_, ?_⟩
  · intro hlt
    unfold start_job
    dsimp only
    rw [if_neg (not_le.mpr hlt)]
  · intro hle hbroken
    unfold start_job
    dsimp only
    rw [if_pos hle, if_pos hbroken]
  · intro hlt
    unfold repair_machine
    dsimp only
    rw [if_neg (not_le.mpr hlt)]
  · intro h1 h2
    unfold change_shift
    rw [if_neg (not_or.mpr ⟨h1, h2⟩)]

/-- C5 witness: Scenario D (`repair_machine` with cash 100), failing
`start_job` on low cash and on a broken machine, and an invalid shift,
all leave the state untouched. -/
theorem C5_domain_errors_preserve_state_witness :
    (stateD.cash_balance < ((50 * 10 : Int) : Rat) ∧
     start_job stateD "J1" 10 = (stateD, "Insufficient funds to start job.")) ∧
    (((50 * 10 : Int) : Rat) ≤ stateBroken.cash_balance ∧
     stateBroken.machine_health ≤ 0 ∧
     start_job stateBroken "J1" 10 = (stateBroken, "Machine broken. Cannot start job.")) ∧
    (stateD.cash_balance < ((200 : Int) : Rat) ∧
     repair_machine stateD = (stateD, "Insufficient funds for repair.")) ∧
    ("SIDEWAYS" ≠ "DAY" ∧ "SIDEWAYS" ≠ "NIGHT" ∧
     change_shift stateD "SIDEWAYS" = (stateD, "Invalid shift. Use DAY or NIGHT.")) :=
  ⟨⟨by decide, (C5_domain_errors_preserve_state stateD "J1" "SIDEWAYS" 10).1 (by decide)⟩,
   ⟨by decide, by decide,
    (C5_domain_errors_preserve_state stateBroken "J1" "SIDEWAYS" 10).2.1 (by decide) (by decide)⟩,
   ⟨by decide, (C5_domain_errors_preserve_state stateD "J1" "SIDEWAYS" 10).2.2.1 (by decide)⟩,
   ⟨by decide, by decide,
    (C5_domain_errors_preserve_state stateD "J1" "SIDEWAYS" 10).2.2.2 (by decide) (by decide)⟩⟩

/-- C6: when an active job with the given id exists, `cancel_job`
removes exactly the first such job, upserts a CANCELLED record and
returns a confirmation; otherwise it returns the job-not-found message,
writes nothing, and leaves the state unchanged.  In both cases the cash
balance is untouched (no refund). -/
theorem C6_cancel_job (s : FactoryState) (job_id : String) :
    (∀ job, s.active_jobs.find? (fun j => j.id == job_id) = some job →
      cancel_job s job_id =
        ({ s with
            active_jobs := s.active_jobs.eraseP (fun j => j.id == job_id)
            job_history :=
              log_job s.job_history (jobRecordOf job "CANCELLED" s.factory_clock) },
         "Job " ++ job_id ++ " cancelled.")) ∧
    (s.active_jobs.find? (fun j => j.id == job_id) = none →
      cancel_job s job_id = (s, "Job not found.")) ∧
    (cancel_job s job_id).1.cash_balance = s.cash_balance := by
  refine ⟨?_, ?_, ?_⟩
  · intro job hjob
    simp only [cancel_job, hjob]
    rw [erase_find?_eq_eraseP _ _ _ hjob]
    rfl
  · intro hnone
    simp only [cancel_job, hnone]
  · cases hfind : s.active_jobs.find? (fun j => j.id == job_id) <;>
      simp only [cancel_job, hfind]

/-- C6 witness: cancelling the job started in Scenario A removes it and
writes the CANCELLED record; cancelling `"MISSING"` on the fresh (empty)
active set returns the not-found message and changes nothing
(Scenario E). -/
theorem C6_cancel_job_witness :
    (scenarioA.active_jobs.find? (fun j => j.id == "O1") =
      some { id := "O1", qty := 10, start_tick := 0, duration := 5,
             cost := 500, revenue := 0 }) ∧
    cancel_job scenarioA "O1" =
      ({ scenarioA with
          active_jobs := scenarioA.active_jobs.eraseP (fun j => j.id == "O1")
          job_history :=
            log_job scenarioA.job_history
              (jobRecordOf
                { id := "O1", qty := 10, start_tick := 0, duration := 5,
                  cost := 500, revenue := 0 } "CANCELLED" scenarioA.factory_clock) },
       "Job " ++ "O1" ++ " cancelled.") ∧
    (initState.active_jobs.find? (fun j => j.id == "MISSING") = none) ∧
    cancel_job initState "MISSING" = (initState, "Job not found.") :=
  ⟨by decide,
   (C6_cancel_job scenarioA "O1").1
     { id := "O1", qty := 10, start_tick := 0, duration := 5,
       cost := 500, revenue := 0 } (by decide),
   by decide,
   (C6_cancel_job initState "MISSING").2.1 (by decide)⟩

/-- C8: `start_job` never validates `qty`.  For any `qty ≤ 0` (machine
working, cash non-negative) the funds check `cash >= 50*qty` passes, so
the call succeeds: it returns the success confirmation, enqueues a job
with the non-positive quantity, still applies wear, and for `qty < 0`
it INCREASES the cash balance by `50 * |qty|`. -/
theorem C8_no_qty_validation (s : FactoryState) (job_id : String) (qty : Int)
    (hq : qty ≤ 0) (hc : 0 ≤ s.cash_balance) (hh : 0 < s.machine_health) :
    (start_job s job_id qty =
      ({ s with
          cash_balance := s.cash_balance - ((50 * qty : Int) : Rat)
          active_jobs := s.active_jobs ++
            [{ id := job_id, qty := qty, start_tick := s.factory_clock,
               duration := 5, cost := 50 * qty, revenue := 0 }]
          machine_health :=
            max 0 (s.machine_health - (if s.current_shift = "DAY" then 5 else 8))
          job_history := log_job s.job_history
            { job_id := job_id, start_tick := s.factory_clock,
              end_tick := s.factory_clock, status := "STARTED",
              revenue := 0, cost := 50 * qty } },
       "Job " ++ job_id ++ " started. Cost: $" ++ toString (50 * qty : Int) ++
         ". Est. Duration: 5 ticks.")) ∧
    (qty < 0 →
      (start_job s job_id qty).1.cash_balance =
        s.cash_balance + ((50 * (-qty) : Int) : Rat)) := by
  have hcost : ((50 * qty : Int) : Rat) ≤ s.cash_balance := by
    have h1 : (50 * qty : Int) ≤ 0 := by omega
    have h2 : ((50 * qty : Int) : Rat) ≤ 0 := by exact_mod_cast h1
    linarith
  refine ⟨start_job_success s job_id qty hcost hh, ?_⟩
  intro _
  rw [start_job_success s job_id qty hcost hh]
  push_cast
  ring

/-- C8 witness: `start_job("NEG", -2)` from the fresh state succeeds and
raises the cash balance by 100. -/
theorem C8_no_qty_validation_witness :
    (-2 : Int) ≤ 0 ∧ (0 : Rat) ≤ initState.cash_balance ∧
    0 < initState.machine_health ∧ (-2 : Int) < 0 ∧
    (start_job initState "NEG" (-2)).1.cash_balance =
      initState.cash_balance + ((50 * (-(-2)) : Int) : Rat) :=
  ⟨by decide, by decide, by decide, by decide,
   (C8_no_qty_validation initState "NEG" (-2) (by decide) (by decide) (by decide)).2 (by decide)⟩

/-- C9: active job ids are not kept unique.  Starting a job whose id is
already active succeeds (given cash and health) and appends a second,
independent job with the same id; a subsequent `cancel_job` of that id
removes only the earliest-started (first-listed) job with the id,
leaving the newly appended one active. -/
theorem C9_duplicate_active_ids (s : FactoryState) (X : String) (qty : Int)
    (j : Job) (hj : j ∈ s.active_jobs) (hid : j.id = X)
    (hcash : ((50 * qty : Int) : Rat) ≤ s.cash_balance)
    (hh : 0 < s.machine_health) :
    (start_job s X qty).2 =
      "Job " ++ X ++ " started. Cost: $" ++ toString (50 * qty : Int) ++
        ". Est. Duration: 5 ticks." ∧
    (start_job s X qty).1.active_jobs =
      s.active_jobs ++
        [{ id := X, qty := qty, start_tick := s.factory_clock,
           duration := 5, cost := 50 * qty, revenue := 0 }] ∧
    (cancel_job (start_job s X qty).1 X).1.active_jobs =
      s.active_jobs.eraseP (fun j => j.id == X) ++
        [{ id := X, qty := qty, start_tick := s.factory_clock,
           duration := 5, cost := 50 * qty, revenue := 0 }] := by
  have hs := start_job_success s X qty hcash hh
  have hjobs : (start_job s X qty).1.active_jobs =
      s.active_jobs ++
        [{ id := X, qty := qty, start_tick := s.factory_clock,
           duration := 5, cost := 50 * qty, revenue := 0 }] := by
    rw [hs]
  have hsome : (s.active_jobs.find? (fun j => j.id == X)).isSome :=
    List.find?_isSome.mpr ⟨j, hj, by simp [hid]⟩
  obtain ⟨j0, hj0⟩ := Option.isSome_iff_exists.mp hsome
  have hmem : j0 ∈ s.active_jobs := List.mem_of_find?_eq_some hj0
  have hfind : ((start_job s X qty).1.active_jobs).find? (fun j => j.id == X) =
      some j0 := by
    rw [hjobs, List.find?_append, hj0]
    rfl
  refine ⟨by rw [hs]; rfl, hjobs, ?_⟩
  simp only [cancel_job, hfind]
  rw [hjobs, List.erase_append_left _ hmem, erase_find?_eq_eraseP _ _ _ hj0]

/-- A fresh state that already carries an active job with id O1. -/
def stateC9 : FactoryState :=
  { initState with
      active_jobs := [{ id := "O1", qty := 10, start_tick := 0,
                        duration := 5, cost := 500, revenue := 0 }] }

/-- C9 witness: with job O1 already active, `start_job("O1", 7)` then
`cancel_job("O1")` leaves exactly the second O1 job active. -/
theorem C9_duplicate_active_ids_witness :
    ({ id := "O1", qty := 10, start_tick := 0, duration := 5,
       cost := 500, revenue := 0 } : Job) ∈ stateC9.active_jobs ∧
    ({ id := "O1", qty := 10, start_tick := 0, duration := 5,
       cost := 500, revenue := 0 } : Job).id = "O1" ∧
    ((50 * 7 : Int) : Rat) ≤ stateC9.cash_balance ∧
    0 < stateC9.machine_health ∧
    (cancel_job (start_job stateC9 "O1" 7).1 "O1").1.active_jobs =
      stateC9.active_jobs.eraseP (fun j => j.id == "O1") ++
        [{ id := "O1", qty := 7, start_tick := stateC9.factory_clock,
           duration := 5, cost := 50 * 7, revenue := 0 }] :=
  ⟨by decide, by decide, by decide, by decide,
   (C9_duplicate_active_ids stateC9 "O1" 7
     { id := "O1", qty := 10, start_tick := 0, duration := 5,
       cost := 500, revenue := 0 }
     (by decide) (by decide) (by decide) (by decide)).2.2⟩

/-- C7: `get_status` does not return a structured mapping at all — it
returns one formatted STRING (the engine-side `get_status` builds an
f-string; the tool layer annotates `Dict[str, Any]` but just forwards
the string).  Evaluated at the fresh state. -/
theorem C7_get_status_is_a_string :
    get_status initState =
      "Tick: 0 | Shift: DAY | Cash: $1000.00 | Inventory: 0 | Health: 100.0% | Active Jobs: 0" := by
  unfold get_status formatFixed2 pyFloatRepr initState
  norm_num
  rfl

/-- C4 counterexample: with the clock at 2, horizon 1 and both noise
draws fixed to zero, the single forecast entry (for tick 3, where the
cycle is `sin(π/4) = √2/2`) carries demand `int(10 + 5·√2/2) = 13`,
whereas the demand formula as the claim states it — with rounding to the
nearest integer — yields `round(13.535...) = 14`. -/
theorem C4_counterexample :
    get_market_forecast_real 2 1 (fun _ => 0) (fun _ => 0) =
      [("3", (13, pyPrice (fun _ => 0) 3))] ∧
    demand_spec (fun _ => 0) 3 = 14 := by
  obtain ⟨h1, h2⟩ := sqrt_two_bounds
  have hs0 : (0 : Real) ≤ Real.sqrt 2 := Real.sqrt_nonneg 2
  have hd : pyDemand (fun _ => 0) 3 = 13 := by
    unfold pyDemand pyInt
    rw [cycle_three]
    rw [if_pos (by push_cast; nlinarith)]
    have hfloor : ⌊(10 : Real) + Real.sqrt 2 / 2 * 5 + (((0 : Int) : Real))⌋ = 13 := by
      rw [Int.floor_eq_iff]
      constructor
      · push_cast
        nlinarith
      · push_cast
        nlinarith
    rw [hfloor]
    decide
  constructor
  · have hlist : get_market_forecast_real 2 1 (fun _ => 0) (fun _ => 0) =
        [("3", (pyDemand (fun _ => 0) 3, pyPrice (fun _ => 0) 3))] := rfl
    rw [hlist, hd]
  · unfold demand_spec
    rw [cycle_three, round_eq]
    have hfloor : ⌊(10 : Real) + Real.sqrt 2 / 2 * 5 + (((0 : Int) : Real)) + 1 / 2⌋ = 14 := by
      rw [Int.floor_eq_iff]
      constructor
      · push_cast
        nlinarith
      · push_cast
        nlinarith
    rw [hfloor]
    decide

/-- C4 (amended): for every clock value and horizon, the forecast has
exactly `horizon` entries, keyed in order by the string forms of ticks
`clock+1 .. clock+horizon`, and the entry at offset `i` has demand
`max(1, int(baseDemand + cycle·5 + noise))` — with Python `int()`
truncation toward zero, not rounding to nearest — and price
`basePrice + cycle·20 + noise` rounded to 2 decimal places; with both
noise streams fixed the result is a pure function of the inputs. -/
theorem C4_get_market_forecast_amended (clock horizon : Nat)
    (noiseD : Nat → Int) (noiseP : Nat → Real) :
    (get_market_forecast_real clock horizon noiseD noiseP).length = horizon ∧
    ∀ i, i < horizon →
      (get_market_forecast_real clock horizon noiseD noiseP)[i]? =
        some (toString (clock + i + 1),
          (max 1 (pyInt ((10 : Real) + cycle (clock + i + 1) * 5 +
              ((noiseD (clock + i + 1) : Int) : Real))),
           pyRound2 ((150 : Real) + cycle (clock + i + 1) * 20 +
              noiseP (clock + i + 1)))) := by
  constructor
  · unfold get_market_forecast_real
    rw [List.length_map, List.length_range']
  · intro i hi
    unfold get_market_forecast_real
    rw [List.getElem?_map, List.getElem?_range' 1 1 hi]
    have harg : 1 + 1 * i = i + 1 := by omega
    rw [harg]
    rfl

/-- C4 witness: the amended statement instantiated at clock 0,
horizon 1, offset 0, zero noise. -/
theorem C4_get_market_forecast_amended_witness :
    (get_market_forecast_real 0 1 (fun _ => 0) (fun _ => 0)).length = 1 ∧
    ((0 : Nat) < 1 ∧
     (get_market_forecast_real 0 1 (fun _ => 0) (fun _ => 0))[0]? =
       some (toString (0 + 0 + 1),
         (max 1 (pyInt ((10 : Real) + cycle (0 + 0 + 1) * 5 + (((0 : Int)) : Real))),
          pyRound2 ((150 : Real) + cycle (0 + 0 + 1) * 20 + 0)))) :=
  ⟨(C4_get_market_forecast_amended 0 1 (fun _ => 0) (fun _ => 0)).1,
   by decide,
   (C4_get_market_forecast_amended 0 1 (fun _ => 0) (fun _ => 0)).2 0 (by decide)⟩
